import Mathlib

/-!
Verification of the authentication and session-lifecycle subsystem of the
qiangzhi-jwgl repository, as a shallow embedding in Lean 4.

The embedded code comes from:
* `src/admin_login_manager.py` — `_encode_credentials`, `_check_login_success`
* `src/captcha_solver.py` — `recognize_with_ddddocr`, `solve_captcha`
* `src/login_manager.py` — `login` (the captcha-retry loop)
* `src/session_manager.py` — `request`, `ensure_logged_in`,
  `_is_session_valid`, `_is_login_redirect`, `_load_session`

Python strings are modelled as Lean `String`/`List Char`; network transports
are modelled as oracles (the response a `session.get`/`session.post` would
return is passed in explicitly); `try/except` blocks are modelled with
`Except`/`Option`.  Functions keep their Python names with the leading
underscore dropped where needed.
-/

/-! ### Generic string helpers modelling Python primitives -/

/-- Models Python `needle == hay[:len(needle)]`, i.e. "hay starts with
needle".  First argument is the pattern, second the text. -/
def startsWithSeq : List Char → List Char → Bool
  | [], _ => true
  | _ :: _, [] => false
  | a :: as, b :: bs => a == b && startsWithSeq as bs

/-- Models the Python substring test `pat in hay`. -/
def containsSeq (pat : List Char) : List Char → Bool
  | [] => pat.isEmpty
  | c :: rest => startsWithSeq pat (c :: rest) || containsSeq pat rest

/-- Auxiliary scanner for `pySplit`: fuel-indexed so the recursion is
structural.  `acc` holds the chars of the current part, reversed. -/
def pySplitAux (sep : List Char) : Nat → List Char → List Char → List (List Char)
  | 0, acc, hay => [acc.reverse ++ hay]
  | fuel + 1, acc, hay =>
    match hay with
    | [] => [acc.reverse]
    | c :: rest =>
      if startsWithSeq sep hay then
        acc.reverse :: pySplitAux sep fuel [] (hay.drop sep.length)
      else
        pySplitAux sep fuel (c :: acc) rest

/-- Models Python `hay.split(sep)` for a non-empty separator: splits on every
non-overlapping occurrence, scanning left to right. -/
def pySplit (sep hay : List Char) : List (List Char) :=
  pySplitAux sep hay.length [] hay

/-- Models Python `str.lower()`.  Lean's `Char.toLower` only folds ASCII
letters; the keywords scanned in this code base are ASCII or CJK (caseless),
so the two agree on every character the code compares. -/
def lowerStr (s : String) : String :=
  String.mk (s.data.map Char.toLower)

/-- Models Python `str.strip()` (ASCII whitespace, which is all the portal
emits around its error markers). -/
def pyStrip (s : String) : String :=
  String.mk ((s.data.dropWhile Char.isWhitespace).reverse.dropWhile Char.isWhitespace |>.reverse)

/-! ### CredentialEncoder — `AdminLoginManager._encode_credentials`
(src/admin_login_manager.py lines 96-155) -/

/-- Inner `for _ in range(count)` loop of `_encode_credentials` step 3: emits
up to `count` characters of `scode` starting at index `idx`, returning the
emitted characters and the final index.  When `idx` has reached the end of
`scode` an iteration appends nothing and leaves the index unchanged, exactly
as the guarded `if scode_idx < len(scode)` does. -/
def interInner (scode : List Char) : Nat → Nat → List Char × Nat
  | idx, 0 => ([], idx)
  | idx, n + 1 =>
    if idx < scode.length then
      (scode.getD idx ' ' :: (interInner scode (idx + 1) n).1,
       (interInner scode (idx + 1) n).2)
    else
      interInner scode idx n

/-- Outer loop of `_encode_credentials` steps 3-5: for each `count` emit
`count` scode characters then one base character (guarded by
`base_idx < len(base_str)`), and after the counts are exhausted append the
remaining base characters and then the remaining scode characters (the two
trailing `while` loops). -/
def interOuter (scode base : List Char) : List Nat → Nat → Nat → List Char
  | [], si, bi => base.drop bi ++ scode.drop si
  | k :: ks, si, bi =>
    if bi < base.length then
      (interInner scode si k).1 ++
        base.getD bi ' ' :: interOuter scode base ks (interInner scode si k).2 (bi + 1)
    else
      (interInner scode si k).1 ++ interOuter scode base ks (interInner scode si k).2 bi

/-- The interleaving core of `_encode_credentials`, started at index 0 in
both `scode` and the base string. -/
def interleave (scode base : List Char) (counts : List Nat) : List Char :=
  interOuter scode base counts 0 0

/-- The base string `f"{username}%%%{password}"` of `_encode_credentials`. -/
def pyBaseStr (username password : String) : String :=
  username ++ "%%%" ++ password

/-- The `encoded` variable of `_encode_credentials` (the joined result list)
for a given parsed layout. -/
def encodedChars (username password scode : String) (counts : List Nat) : List Char :=
  interleave scode.data (pyBaseStr username password).data counts

/-- Models Python `int(s)` as used on the pieces of `sxh`: succeeds on a
non-empty all-digit string, fails (raises `ValueError`) otherwise.  Python's
`int` additionally accepts surrounding whitespace, an explicit sign and
underscore digit separators; the portal's layout strings are plain digit
groups, so the model restricts to those. -/
def parsePyNat (s : List Char) : Option Nat :=
  if s ≠ [] ∧ s.all Char.isDigit then
    some (s.foldl (fun n c => 10 * n + (c.toNat - '0'.toNat)) 0)
  else
    none

/-- Step 2 of `_encode_credentials`: parse the `sxh` layout string, either
hyphen-separated integers (`"1-2-3"`) or one digit per character (`"123"`).
`none` models the `ValueError` that `int()` raises on a malformed piece. -/
def parseSxh (sxh : String) : Option (List Nat) :=
  if containsSeq ['-'] sxh.data then
    (pySplit ['-'] sxh.data).mapM parsePyNat
  else
    sxh.data.mapM (fun c => parsePyNat [c])

/-- Body of the `try` block of `_encode_credentials`: parse `sxh` (the only
fallible operation, whose failure the `error` channel carries), interleave,
then split the result on `"%%%"` — `parts[0]` becomes the encoded username
and `parts[1] if len(parts) > 1 else ''` the encoded password; when the
separator did not survive, the whole result is the username and the password
is empty. -/
def encodeCredentialsTry (username password scode sxh : String) :
    Except String (String × String) :=
  match parseSxh sxh with
  | none => Except.error "ValueError"
  | some counts =>
    let encoded := encodedChars username password scode counts
    if containsSeq "%%%".data encoded then
      let parts := pySplit "%%%".data encoded
      Except.ok (String.mk (parts.headD []),
                 String.mk ((parts.drop 1).headD []))
    else
      Except.ok (String.mk encoded, "")

/-- `AdminLoginManager._encode_credentials`: the whole body is wrapped in
`try/except`, and any internal exception is swallowed by returning the raw
`(username, password)` pair unchanged. -/
def encode_credentials (username password scode sxh : String) : String × String :=
  match encodeCredentialsTry username password scode sxh with
  | Except.ok r => r
  | Except.error _ => (username, password)

/-- The spec description of the walk (spec section 4.1, quoted by the
claim): for each integer `k` of the layout emit the next `k` unconsumed
`code` characters, then one base-string character, both clamped; after the
layout, append the remaining base characters, then the remaining code
characters. -/
def specWalk (code base : List Char) : List Nat → List Char
  | [] => base ++ code
  | k :: ks => code.take k ++ base.take 1 ++ specWalk (code.drop k) (base.drop 1) ks

/-! ### CaptchaResolver — `CaptchaSolver` (src/captcha_solver.py) -/

/-- The result dict returned by `CaptchaSolver.solve_captcha` (keys
`success`, `result`, `engine`, `message`; `engine` is absent from the
failure dicts, modelled as `none`). -/
structure SolveDict where
  success : Bool
  result : Option String
  engine : Option String
  message : String
deriving DecidableEq, Repr

/-- Models Python `str.isalnum` for the characters the portal's captcha
alphabet uses (ASCII letters and digits; Python's `isalnum` additionally
accepts non-ASCII alphanumerics, which the OCR engine does not emit for
this portal). -/
def pyIsAlnum (c : Char) : Bool :=
  c.isAlphanum

/-- `CaptchaSolver.recognize_with_ddddocr` (src/captcha_solver.py lines
61-96), given the raw string produced by `ddddocr.classification` on the
image: returns `None` when the engine is unavailable or the raw result is
empty/falsy, otherwise keeps only alphanumeric characters and returns the
cleaned string, or `None` when nothing survives the cleaning. -/
def recognize_with_ddddocr (engines : List String) (raw : String) : Option String :=
  if ¬ engines.contains "ddddocr" then
    none
  else if raw == "" then
    none
  else
    let cleaned := String.mk (raw.data.filter pyIsAlnum)
    if cleaned == "" then none else some cleaned

/-- Python `s[:4]`. -/
def pyTake (n : Nat) (s : String) : String :=
  String.mk (s.data.take n)

/-- `CaptchaSolver.solve_captcha` (src/captcha_solver.py lines 125-184).
The value is `Option SolveDict` because the Python function has paths that
fall off the end of the body without a `return` statement and therefore
yield `None` instead of a dict: when the cleaned recognition result has
length ≤ 2 (only a warning is logged), and when the recognizer itself
returns `None`.  All explicit `return` statements are the `some` cases. -/
def solve_captcha (engines : List String) (raw : String) : Option SolveDict :=
  if engines.isEmpty then
    some ⟨false, none, none, "没有可用的OCR引擎，请安装ddddocr或pytesseract"⟩
  else if engines.contains "ddddocr" then
    match recognize_with_ddddocr engines raw with
    | some result =>
      if result.length ≥ 4 then
        some ⟨true, some (pyTake 4 result), some "ddddocr",
              "识别成功: " ++ pyTake 4 result ++ " (原始: " ++ result ++ ")"⟩
      else if result.length == 3 then
        some ⟨true, some result, some "ddddocr", "识别成功(只有3位): " ++ result⟩
      else
        none
    | none => none
  else
    some ⟨false, none, none, "所有引擎都未能识别出有效结果"⟩

/-! ### AuthenticationController outcome classification —
`AdminLoginManager._check_login_success` (src/admin_login_manager.py
lines 328-361) -/

/-- The data `_check_login_success` inspects: the response status code, its
`Location` header, its body, and whether the session cookie jar holds a
`JSESSIONID` entry after the submission (`'JSESSIONID' in
self.session.cookies`). -/
structure AdminResponse where
  status : Nat
  location : String
  body : String
  hasJSessionId : Bool
deriving DecidableEq, Repr

/-- First check of `_check_login_success`: a 301/302/303/307/308 redirect
whose `Location` contains `main` or `index` (case-insensitively). -/
def redirectMatch (r : AdminResponse) : Bool :=
  (r.status == 301 || r.status == 302 || r.status == 303 ||
   r.status == 307 || r.status == 308) &&
  (containsSeq "main".data (lowerStr r.location).data ||
   containsSeq "index".data (lowerStr r.location).data)

/-- Second check: the lowercased body contains one of the success keywords
`'success'`, `'成功'`, `'welcome'`. -/
def successMark (r : AdminResponse) : Bool :=
  ["success", "成功", "welcome"].any
    (fun k => containsSeq k.data (lowerStr r.body).data)

/-- Third check: the lowercased body contains one of the failure keywords
`'error'`, `'错误'`, `'fail'`, `'失败'`, `'验证码'`, `'用户名'`, `'密码'`. -/
def failMark (r : AdminResponse) : Bool :=
  ["error", "错误", "fail", "失败", "验证码", "用户名", "密码"].any
    (fun k => containsSeq k.data (lowerStr r.body).data)

/-- `AdminLoginManager._check_login_success`, with the four early returns in
the order they appear in the source: matching redirect, then body success
keyword, then body failure keyword, then the `JSESSIONID` cookie, then the
final `return False`. -/
def check_login_success (r : AdminResponse) : Bool :=
  if redirectMatch r then true
  else if successMark r then true
  else if failMark r then false
  else if r.hasJSessionId then true
  else false

/-- The classifier described by claim C3's priority order, written from the
claim's words for comparison with `check_login_success`: (a) matching
redirect, then (b) session-identity cookie, then (c)/(d) failure.  `true`
is SUCCESS; both FAILED outcomes are `false`. -/
def claimOrderClassify (r : AdminResponse) : Bool :=
  if redirectMatch r then true
  else if r.hasJSessionId then true
  else false

/-! ### SessionLifecycleManager — `SessionManager` (src/session_manager.py) -/

/-- The data of a transport response that `SessionManager` inspects: the
final URL (after redirects), the status code and the body text. -/
structure JResp where
  url : String
  status : Nat
  body : String
deriving DecidableEq, Repr

/-- `SessionManager._is_login_redirect` (src/session_manager.py lines
328-340): true when the response URL contains one of the literal indicator
substrings (including the literal string `/jsxsd/$`, dollar included — the
source uses plain `in`, not a regex) or the body contains a login form
marker. -/
def is_login_redirect (r : JResp) : Bool :=
  ["/login", "/Login", "/jsxsd/xk/LoginToXk", "/jsxsd/$"].any
      (fun ind => containsSeq ind.data r.url.data) ||
  containsSeq "登录".data r.body.data ||
  containsSeq "login".data (lowerStr r.body).data

/-- Instrumented outcome of `SessionManager.request`: the returned response
or the raised exception message, plus how many transport requests were
issued by this call and how many `_auto_login` re-authentications were
attempted. -/
structure ReqTrace where
  outcome : Except String JResp
  requestsIssued : Nat
  reauthAttempts : Nat
deriving Repr

/-- The part of `SessionManager.request` (src/session_manager.py lines
129-151) that runs after `ensure_logged_in` has succeeded, i.e. with a
believed-valid session.  The transport is an oracle: `resp1` is what
`self.session.request` returns for the original call and `resp2` what it
returns for the retry; `autoLoginOk` is the oracle outcome of
`self._auto_login()`.  The source issues the request, and only if the
response is a login redirect performs one `_auto_login`; on its success it
re-issues the request once and returns that second response unconditionally
(it is never inspected again); on its failure it raises. -/
def sm_request (resp1 : JResp) (autoLoginOk : Bool) (resp2 : JResp) : ReqTrace :=
  if is_login_redirect resp1 then
    if autoLoginOk then
      ⟨Except.ok resp2, 2, 1⟩
    else
      ⟨Except.error "会话过期且重新登录失败", 1, 1⟩
  else
    ⟨Except.ok resp1, 1, 0⟩

/-- `SessionManager._is_session_valid` (src/session_manager.py lines
293-326), instrumented with the number of transport requests it issues.
`lastActivity = none` models `self._last_activity` being unset (`None`);
`probe = none` models the probe GET raising (caught, returns `False`).
Note that even when the in-memory flags are fresh the function still issues
the probe GET to `/jsxsd/framework/xsMain.jsp`. -/
def is_session_valid (isLoggedIn : Bool) (lastActivity : Option Nat)
    (now timeout : Nat) (probe : Option JResp) : Bool × Nat :=
  if ¬ isLoggedIn ∨ lastActivity = none then
    (false, 0)
  else if now - lastActivity.getD 0 > timeout then
    (false, 0)
  else
    match probe with
    | none => (false, 1)
    | some r =>
      if is_login_redirect r then (false, 1)
      else (r.status == 200, 1)

/-- `SessionManager.ensure_logged_in` (src/session_manager.py lines 76-95),
instrumented with the number of probe requests issued by the validity
checks.  `loadRes` is the oracle outcome of `self._load_session()` (the
state it restores, file I/O involving no transport requests), `probe1` and
`probe2` the probe responses of the two possible `_is_session_valid` calls,
and `autoLoginOk` the oracle outcome of `self._auto_login()` (whose own
transport traffic happens inside `login_manager.login` and is not counted
here). -/
def ensure_logged_in (isLoggedIn : Bool) (lastActivity : Option Nat)
    (now timeout : Nat) (probe1 : Option JResp)
    (loadRes : Option (Bool × Option Nat)) (probe2 : Option JResp)
    (autoLoginOk : Bool) : Bool × Nat :=
  let v1 := is_session_valid isLoggedIn lastActivity now timeout probe1
  if v1.1 then
    (true, v1.2)
  else
    match loadRes with
    | some st2 =>
      let v2 := is_session_valid st2.1 st2.2 now timeout probe2
      if v2.1 then (true, v1.2 + v2.2)
      else (autoLoginOk, v1.2 + v2.2)
    | none => (autoLoginOk, v1.2)

/-! ### SessionStore — `SessionManager._load_session`
(src/session_manager.py lines 243-291) and `save_session` cookie shapes -/

/-- One stored cookie entry as `_load_session` finds it in the JSON record:
either the legacy flat shape (the value is a bare string) or the structured
shape written by `save_session` (a dict with `value`, `domain`, `path`,
`secure`). -/
inductive CookieVal where
  | legacy (value : String)
  | structured (value : String) (domain : Option String) (path : Option String)
      (secure : Bool)
deriving DecidableEq, Repr

/-- The name/value/domain/path data `requests`' cookie jar keeps for one
cookie set via `cookies.set(name, value, domain=…, path=…)`; the legacy
branch passes no domain/path. -/
structure CookieEntry where
  name : String
  value : String
  domain : Option String
  path : Option String
deriving DecidableEq, Repr

/-- `cookies.set` on the jar: replace the entry with the same name, or
append.  (JSON object keys are unique, so each name is set once per load.) -/
def setCookie : List CookieEntry → CookieEntry → List CookieEntry
  | [], e => [e]
  | c :: cs, e => if c.name == e.name then e :: cs else c :: setCookie cs e

/-- The cookie-restoring loop of `_load_session` (lines 268-280): for each
entry, the structured shape is set with its value/domain/path
(`isinstance(cookie_info, dict)` branch) and the legacy shape is set with
just name and value. -/
def restoreCookies (jar : List CookieEntry) : List (String × CookieVal) → List CookieEntry
  | [] => jar
  | (n, CookieVal.structured v d p _) :: es =>
    restoreCookies (setCookie jar ⟨n, v, d, p⟩) es
  | (n, CookieVal.legacy v) :: es =>
    restoreCookies (setCookie jar ⟨n, v, none, none⟩) es

/-- The parsed JSON session record, with `Option` fields modelling the
`session_data.get(key, default)` accesses (`none` = key absent). -/
structure SessionData where
  saved_time : Option Nat
  logged_in : Option Bool
  last_activity : Option Nat
  cookies : Option (List (String × CookieVal))
  user_info : Option (List (String × String))
deriving DecidableEq, Repr

/-- The mutable state `_load_session` restores: the manager's flags, the
shared cookie jar, and the login manager's mirrored fields. -/
structure SMState where
  isLoggedIn : Bool
  lastActivity : Option Nat
  jar : List CookieEntry
  lmLoggedIn : Bool
  lmUserInfo : List (String × String)
deriving DecidableEq, Repr

/-- `SessionManager._load_session`.  The file argument models the
filesystem: `none` = the session file does not exist (`os.path.exists`
false, early `return False`); `some none` = the file exists but
`json.load` raises (caught by the `except`, `return False` with the state
untouched — the parse happens before any mutation); `some (some d)` = the
parsed record.  An expired record (`time.time() - saved_time >
session_timeout`) also returns `False` before mutating anything. -/
def load_session (file : Option (Option SessionData)) (st : SMState)
    (now timeout : Nat) : Bool × SMState :=
  match file with
  | none => (false, st)
  | some none => (false, st)
  | some (some d) =>
    if now - d.saved_time.getD 0 > timeout then
      (false, st)
    else
      let li := d.logged_in.getD false
      (true,
       { isLoggedIn := li
         lastActivity := some (d.last_activity.getD now)
         jar := restoreCookies st.jar (d.cookies.getD [])
         lmLoggedIn := li
         lmUserInfo := d.user_info.getD [] })

/-! ### AuthenticationController retry loop — `LoginManager.login`
(src/login_manager.py lines 112-223) -/

/-- The oracle data one iteration of the login loop consumes: the outcome of
`_get_captcha_image` (`some image` on 200/non-empty, `none` with the
failure message otherwise), the raw string `ddddocr.classification` would
produce for that image, and the login POST response (its final URL after
redirect-following and the `<font …color…>` error messages
`re.findall(r'<font.*?color.*?>(.*?)</font>', …)` extracts from its body —
the regex extraction itself is treated as given and its result carried as a
field). -/
structure AttemptEnv where
  fetch : Option String
  fetchErrMsg : String
  rawOcr : String
  respUrl : String
  fontErrors : List String
deriving DecidableEq, Repr

/-- The result dict of `LoginManager.login` (the keys the claims are about:
`success` and `message`). -/
structure LoginResult where
  success : Bool
  message : String
deriving DecidableEq, Repr

/-- The `login_response.url == f"{base_url}/jsxsd/framework/xsMain.jsp"`
success test (line 193). -/
def xsMainUrl (base : String) : String :=
  base ++ "/jsxsd/framework/xsMain.jsp"

/-- Whether one loop iteration returns or falls through to the next
iteration (`continue`). -/
inductive StepRes where
  | done (r : LoginResult)
  | retry
deriving DecidableEq, Repr

/-- Steps 3-5 of one iteration of `LoginManager.login` (lines 166-215):
submit with captcha text `current`, then classify.  `isLast` is
`retry_count == max_retries - 1` (so `retry_count < max_retries - 1` is
`¬ isLast`).  A non-main URL with a `<font>` error message containing
`"验证码"` retries when attempts remain; any other extracted error — or no
extractable error — returns immediately. -/
def submitStep (base current : String) (env : AttemptEnv) (isLast : Bool) : StepRes :=
  if current == "" then
    StepRes.done ⟨false, "需要验证码"⟩
  else if env.respUrl == xsMainUrl base then
    StepRes.done ⟨true, "登录成功"⟩
  else
    match env.fontErrors with
    | e :: _ =>
      if containsSeq "验证码".data (pyStrip e).data && ¬ isLast then
        StepRes.retry
      else
        StepRes.done ⟨false, pyStrip e⟩
    | [] => StepRes.done ⟨false, "登录失败，原因未知"⟩

/-- Step 2 plus steps 3-5 of one iteration (lines 141-215): when the caller
passed no captcha and `auto_captcha` is set, fetch a fresh image and run the
solver on it; an unusable fetch or recognition returns on the last attempt
and retries otherwise.  Also returns the list of `_get_captcha_image` calls
this iteration performed (`some image` / failed `none`). -/
def loginStep (base captchaArg : String) (autoCaptcha : Bool) (env : AttemptEnv)
    (isLast : Bool) : StepRes × List (Option String) :=
  if captchaArg == "" && autoCaptcha then
    match env.fetch with
    | some img =>
      match solve_captcha ["ddddocr"] env.rawOcr with
      | some r =>
        if r.success then
          (submitStep base (r.result.getD "") env isLast, [some img])
        else
          if isLast then (StepRes.done ⟨false, "验证码识别失败"⟩, [some img])
          else (StepRes.retry, [some img])
      | none =>
        if isLast then (StepRes.done ⟨false, "验证码识别失败"⟩, [some img])
        else (StepRes.retry, [some img])
    | none =>
      if isLast then
        (StepRes.done ⟨false, "验证码获取失败: " ++ env.fetchErrMsg⟩, [none])
      else (StepRes.retry, [none])
  else
    (submitStep base captchaArg env isLast, [])

/-- The `for retry_count in range(max_retries)` loop of `LoginManager.login`
(lines 126-223).  One `AttemptEnv` is consumed per iteration, so the list
length is the remaining attempt budget and `rest.isEmpty` is exactly the
`retry_count == max_retries - 1` test.  `isFirst` guards the step-1 session
establishment (`if retry_count == 0`), whose oracle status is `mainStatus`.
The second component collects every `_get_captcha_image` call made across
iterations. -/
def loginLoop (base : String) (mainStatus : Nat) (captchaArg : String)
    (autoCaptcha : Bool) (maxRetries : Nat) :
    List AttemptEnv → Bool → LoginResult × List (Option String)
  | [], _ =>
    (⟨false, "登录失败，已重试" ++ toString maxRetries ++ "次"⟩, [])
  | env :: rest, isFirst =>
    if isFirst && mainStatus != 200 then
      (⟨false, "主页访问失败: " ++ toString mainStatus⟩, [])
    else
      match loginStep base captchaArg autoCaptcha env rest.isEmpty with
      | (StepRes.done r, f) => (r, f)
      | (StepRes.retry, f) =>
        let t := loginLoop base mainStatus captchaArg autoCaptcha maxRetries rest false
        (t.1, f ++ t.2)

/-- `LoginManager.login` with `max_retries = envs.length`: run the loop from
the first iteration. -/
def lm_login (base : String) (mainStatus : Nat) (captchaArg : String)
    (autoCaptcha : Bool) (envs : List AttemptEnv) :
    LoginResult × List (Option String) :=
  loginLoop base mainStatus captchaArg autoCaptcha envs.length envs true

/-! ### Name/value projections for comparing restored cookie jars -/

/-- The value carried by either stored cookie shape. -/
def cookieValue : CookieVal → String
  | CookieVal.legacy v => v
  | CookieVal.structured v _ _ _ => v

/-- Collapse a stored cookie entry to the legacy flat shape carrying the
same name and value. -/
def toLegacy (p : String × CookieVal) : String × CookieVal :=
  (p.1, CookieVal.legacy (cookieValue p.2))

/-- The name/value view of a cookie jar. -/
def nvPairs (jar : List CookieEntry) : List (String × String) :=
  jar.map (fun c => (c.name, c.value))

/-- `setCookie` seen at the name/value level. -/
def pairSet : List (String × String) → String → String → List (String × String)
  | [], n, v => [(n, v)]
  | p :: ps, n, v => if p.1 == n then (n, v) :: ps else p :: pairSet ps n v

/-- `restoreCookies` seen at the name/value level. -/
def pairsRestore : List (String × String) → List (String × String) → List (String × String)
  | acc, [] => acc
  | acc, (n, v) :: es => pairsRestore (pairSet acc n v) es

/-- The observable session state restored by `_load_session`, with the jar
projected to its name/value pairs. -/
def stateNV (st : SMState) :
    Bool × Option Nat × List (String × String) × Bool × List (String × String) :=
  (st.isLoggedIn, st.lastActivity, nvPairs st.jar, st.lmLoggedIn, st.lmUserInfo)

/-! ### Lemmas about the interleaving core -/

/-- The inner loop emits exactly the next `k` unconsumed scode characters
(clamped at the end of `scode`) and advances the index accordingly. -/
theorem interInner_eq (scode : List Char) (k idx : Nat) (h : idx ≤ scode.length) :
    interInner scode idx k = ((scode.drop idx).take k, min (idx + k) scode.length) := by
  induction k generalizing idx with
  | zero =>
    simp [interInner]
    omega
  | succ n ih =>
    by_cases hlt : idx < scode.length
    · rw [interInner, if_pos hlt, ih (idx + 1) hlt]
      rw [List.drop_eq_getElem_cons hlt, List.getD_eq_getElem scode ' ' hlt]
      rw [List.take_succ_cons]
      have hm : min (idx + 1 + n) scode.length = min (idx + (n + 1)) scode.length := by
        omega
      rw [hm]
    · have hidx : idx = scode.length := by omega
      rw [interInner, if_neg hlt, ih idx h]
      have hnil : scode.drop idx = [] := List.drop_eq_nil_of_le (by omega)
      rw [hnil]
      simp
      omega

/-- The outer loop, started at arbitrary indices, computes the spec walk on
the unconsumed suffixes of `scode` and the base string. -/
theorem interOuter_eq (scode base : List Char) (counts : List Nat) :
    ∀ si bi, si ≤ scode.length → bi ≤ base.length →
    interOuter scode base counts si bi = specWalk (scode.drop si) (base.drop bi) counts := by
  induction counts with
  | nil => intro si bi _ _; rfl
  | cons k ks ih =>
    intro si bi hsi hbi
    rw [interOuter, interInner_eq scode k si hsi, specWalk]
    have h1 : scode.drop (min (si + k) scode.length) = (scode.drop si).drop k := by
      rw [List.drop_drop]
      rcases Nat.le_total (si + k) scode.length with hc | hc
      · rw [Nat.min_eq_left hc, Nat.add_comm]
      · rw [Nat.min_eq_right hc]
        rw [List.drop_eq_nil_of_le (le_refl scode.length),
            List.drop_eq_nil_of_le (by omega)]
    by_cases hbl : bi < base.length
    · rw [if_pos hbl, ih (min (si + k) scode.length) (bi + 1) (by omega) hbl, h1]
      rw [List.getD_eq_getElem base ' ' hbl]
      have ht : (base.drop bi).take 1 = [base[bi]] := by
        rw [List.drop_eq_getElem_cons hbl]
        rfl
      have hd : (base.drop bi).drop 1 = base.drop (bi + 1) := by
        rw [List.drop_drop, Nat.add_comm]
      rw [ht, hd]
      simp
    · rw [if_neg hbl]
      have hbase : base.drop bi = [] := List.drop_eq_nil_of_le (by omega)
      rw [ih (min (si + k) scode.length) bi (by omega) hbi, h1, hbase]
      simp

/-! ### Claim C1 — the encoder walk -/

/-- C1: for every identifier, secret, challenge code string and layout of
non-negative integers, the credential encoder's interleaved result is
exactly the string described by the spec walk: for each layout integer `k`,
emit the next `k` unconsumed `code` characters then one character of
`identifier ++ "%%%" ++ secret` (both clamped), then append the remaining
base-string characters, then the remaining code characters. -/
theorem C1_encoder_walk (username password scode : String) (counts : List Nat) :
    encodedChars username password scode counts
      = specWalk scode.data (pyBaseStr username password).data counts := by
  unfold encodedChars interleave
  rw [interOuter_eq scode.data (pyBaseStr username password).data counts 0 0
      (Nat.zero_le _) (Nat.zero_le _)]
  simp

/-! ### Claim C10 — swallowed encoder exceptions -/

/-- C10: whenever the layout string makes the encoder raise internally
(`int()` failing on a piece of `sxh`, modelled by `parseSxh` returning
`none`), the exception is swallowed and the raw `(username, password)`
pair is returned unchanged, in the same shape as a successful encoding. -/
theorem C10_exception_swallowed (username password scode sxh : String)
    (h : parseSxh sxh = none) :
    encode_credentials username password scode sxh = (username, password) := by
  unfold encode_credentials encodeCredentialsTry
  rw [h]

/-- Witness for C10 at the concrete malformed layout `"1-a-2"`. -/
theorem C10_exception_swallowed_witness :
    parseSxh "1-a-2" = none ∧
    encode_credentials "admin" "secret" "CODE123" "1-a-2" = ("admin", "secret") :=
  ⟨by decide, C10_exception_swallowed "admin" "secret" "CODE123" "1-a-2" (by decide)⟩

/-! ### Claim C8 — separator not surviving the interleave -/

/-- C8 counterexample: with identifier `"a"`, secret `"b"`, code `"XYZ"`
and layout `1-1-1-1-1` the separator is broken up and the whole result
`"XaY%Z%%b"` becomes the identifier part with an empty secret part — but
the very same `("XaY%Z%%b", "")` value is also produced by a normal,
separator-preserving encoding (identifier `"XaY%Z%%b"`, empty secret, empty
code, layout `"0"`), so the degraded outcome is NOT surfaced to the caller
as such: it is indistinguishable from a successful encoding. -/
theorem C8_degraded_indistinguishable_cex :
    encode_credentials "a" "b" "XYZ" "1-1-1-1-1" = ("XaY%Z%%b", "") ∧
    containsSeq "%%%".data (encodedChars "a" "b" "XYZ" [1, 1, 1, 1, 1]) = false ∧
    encode_credentials "XaY%Z%%b" "" "" "0" = ("XaY%Z%%b", "") ∧
    containsSeq "%%%".data (encodedChars "XaY%Z%%b" "" "" [0]) = true := by
  refine ⟨by decide, by decide, by decide, by decide⟩

/-- C8 (amended): when the separator does not survive the interleaving, the
entire result becomes the identifier part and the secret part is empty —
but the outcome is returned as an ordinary string pair, not surfaced as a
degraded result. -/
theorem C8_no_separator (username password scode sxh : String) (counts : List Nat)
    (hp : parseSxh sxh = some counts)
    (hns : containsSeq "%%%".data (encodedChars username password scode counts) = false) :
    encode_credentials username password scode sxh
      = (String.mk (encodedChars username password scode counts), "") := by
  unfold encode_credentials encodeCredentialsTry
  rw [hp]
  simp [hns]

/-- Witness for C8 at the concrete degraded input. -/
theorem C8_no_separator_witness :
    encode_credentials "a" "b" "XYZ" "1-1-1-1-1"
      = (String.mk (encodedChars "a" "b" "XYZ" [1, 1, 1, 1, 1]), "") :=
  C8_no_separator "a" "b" "XYZ" "1-1-1-1-1" [1, 1, 1, 1, 1] (by decide) (by decide)

/-! ### Claim C2 — captcha acceptance rules -/

/-- C2: `solve_captcha` trims the OCR result to alphanumeric characters; a
4-character result is accepted with that exact text and a 3-character
result is accepted flagged as degraded ("只有3位"), but a 2-character
result makes the Python function fall off the end of its body and return
`None` — an absent outcome, not the structured unaccepted dict its own
`-> Dict[str, Any]` annotation promises. -/
theorem C2_solve_lengths :
    solve_captcha ["ddddocr"] "a B-3x?"
      = some ⟨true, some "aB3x", some "ddddocr", "识别成功: aB3x (原始: aB3x)"⟩ ∧
    solve_captcha ["ddddocr"] "aB3"
      = some ⟨true, some "aB3", some "ddddocr", "识别成功(只有3位): aB3"⟩ ∧
    solve_captcha ["ddddocr"] "ab" = none := by
  refine ⟨by decide, by decide, by decide⟩

/-! ### Claim C3 — login-outcome classification priority -/

/-- C3 counterexample: a non-redirect response whose body holds the failure
marker `"错误"` while the session cookie jar does hold a `JSESSIONID` is
classified as FAILED by `_check_login_success`, whereas the claim's
priority order (cookie before body scanning) classifies it as SUCCESS: the
cookie check does NOT take priority over body-content scanning. -/
theorem C3_cookie_priority_cex :
    check_login_success ⟨200, "", "错误", true⟩ = false ∧
    claimOrderClassify ⟨200, "", "错误", true⟩ = true := by
  refine ⟨by decide, by decide⟩

/-- C3 (amended): the classification priority is redirect-to-main/index,
then body success marker, then body failure marker, and only then the
session cookie; in particular body scanning takes priority over the cookie
check. -/
theorem C3_classifier_order (r : AdminResponse) :
    (redirectMatch r = true → check_login_success r = true) ∧
    (redirectMatch r = false → successMark r = true → check_login_success r = true) ∧
    (redirectMatch r = false → successMark r = false → failMark r = true →
      check_login_success r = false) ∧
    (redirectMatch r = false → successMark r = false → failMark r = false →
      check_login_success r = r.hasJSessionId) := by
  unfold check_login_success
  refine ⟨?_, ?_, ?_, ?_⟩ <;> intros <;> simp_all

/-- Witness for C3 at a concrete credential-mismatch body with the cookie
present: the failure marker wins over the cookie. -/
theorem C3_classifier_order_witness :
    check_login_success ⟨200, "", "用户名或密码错误", true⟩ = false :=
  (C3_classifier_order ⟨200, "", "用户名或密码错误", true⟩).2.2.1
    (by decide) (by decide) (by decide)

/-! ### Claim C4 — exactly one re-authentication and retry -/

/-- C4 counterexample: when the retried request is again a login redirect,
`request` does not surface a SessionExpired-style failure — it returns the
expired response as an ordinary successful outcome (the retry result is
never inspected). -/
theorem C4_second_expiry_cex :
    (sm_request ⟨"http://58.20.60.39:8099/jsxsd/xk/LoginToXk", 200, ""⟩ true
        ⟨"http://58.20.60.39:8099/jsxsd/xk/LoginToXk", 200, ""⟩).outcome
      = Except.ok ⟨"http://58.20.60.39:8099/jsxsd/xk/LoginToXk", 200, ""⟩ ∧
    is_login_redirect ⟨"http://58.20.60.39:8099/jsxsd/xk/LoginToXk", 200, ""⟩ = true := by
  constructor
  · rfl
  · decide

/-- C4 (amended): on a login-redirect response `request` performs exactly
one `_auto_login` and exactly one retry, and returns the retried response
unconditionally (even if it is again a login redirect — no loop, no second
retry); a failed re-authentication raises; a normal response involves no
re-authentication. -/
theorem C4_single_retry (r1 r2 : JResp) (ok : Bool) :
    (is_login_redirect r1 = true → ok = true →
      sm_request r1 ok r2 = ⟨Except.ok r2, 2, 1⟩) ∧
    (is_login_redirect r1 = true → ok = false →
      sm_request r1 ok r2 = ⟨Except.error "会话过期且重新登录失败", 1, 1⟩) ∧
    (is_login_redirect r1 = false → sm_request r1 ok r2 = ⟨Except.ok r1, 1, 0⟩) := by
  unfold sm_request
  refine ⟨?_, ?_, ?_⟩ <;> intros <;> simp_all

/-- Witness for C4: one expired response followed by a successful
re-authentication and a normal retried response. -/
theorem C4_single_retry_witness :
    sm_request ⟨"http://58.20.60.39:8099/jsxsd/xk/LoginToXk", 200, ""⟩ true
        ⟨"http://58.20.60.39:8099/jsxsd/kscj/cjcx_list", 200, "data"⟩
      = ⟨Except.ok ⟨"http://58.20.60.39:8099/jsxsd/kscj/cjcx_list", 200, "data"⟩, 2, 1⟩ :=
  (C4_single_retry ⟨"http://58.20.60.39:8099/jsxsd/xk/LoginToXk", 200, ""⟩
      ⟨"http://58.20.60.39:8099/jsxsd/kscj/cjcx_list", 200, "data"⟩ true).1
    (by decide) rfl

/-! ### Claim C7 — the "optimistic fast path" of ensure_logged_in -/

/-- C7 counterexample: with the in-memory session marked valid and the last
activity well within the timeout, `ensure_logged_in` returns true — but
only after `_is_session_valid` has issued one probe GET to the main page:
the fast path performs a network call, not zero. -/
theorem C7_fast_path_cex :
    ensure_logged_in true (some 100) 200 1800
      (some ⟨"http://58.20.60.39:8099/jsxsd/framework/xsMain.jsp", 200, "ok"⟩)
      none none false = (true, 1) := by
  decide

/-- C7 (amended): when the session is marked valid and within the timeout,
`ensure_logged_in` returns true after issuing exactly one probe request,
provided the probe comes back with status 200 and is not a login redirect;
the check is not network-free. -/
theorem C7_fast_path_probe (t now timeout : Nat) (r : JResp)
    (loadRes : Option (Bool × Option Nat)) (probe2 : Option JResp) (alOk : Bool)
    (hfresh : now - t ≤ timeout)
    (hnr : is_login_redirect r = false)
    (hst : r.status = 200) :
    ensure_logged_in true (some t) now timeout (some r) loadRes probe2 alOk
      = (true, 1) := by
  unfold ensure_logged_in is_session_valid
  simp [hnr, hst, Nat.not_lt.mpr hfresh]

/-- Witness for C7 at a fresh session and a healthy probe response. -/
theorem C7_fast_path_probe_witness :
    ensure_logged_in true (some 1000) 1500 1800
      (some ⟨"http://58.20.60.39:8099/jsxsd/framework/xsMain.jsp", 200, "ok"⟩)
      (some (true, some 1000)) none true = (true, 1) :=
  C7_fast_path_probe 1000 1500 1800
    ⟨"http://58.20.60.39:8099/jsxsd/framework/xsMain.jsp", 200, "ok"⟩
    (some (true, some 1000)) none true (by decide) (by decide) rfl

/-! ### Claim C9 — loading persisted sessions -/

/-- `setCookie` only changes the name/value view through `pairSet`. -/
theorem nvPairs_setCookie (jar : List CookieEntry) (e : CookieEntry) :
    nvPairs (setCookie jar e) = pairSet (nvPairs jar) e.name e.value := by
  induction jar with
  | nil => rfl
  | cons c cs ih =>
    unfold setCookie nvPairs pairSet
    by_cases h : c.name == e.name
    · simp [h]
    · simp only [h, if_neg]
      simp only [Bool.false_eq_true, if_false, List.map_cons]
      unfold nvPairs at ih
      simp [ih, h]

/-- `restoreCookies` only changes the name/value view through
`pairsRestore` applied to the entries' name/value pairs. -/
theorem nvPairs_restoreCookies (entries : List (String × CookieVal)) :
    ∀ jar, nvPairs (restoreCookies jar entries)
      = pairsRestore (nvPairs jar) (entries.map (fun p => (p.1, cookieValue p.2))) := by
  induction entries with
  | nil => intro jar; rfl
  | cons p es ih =>
    intro jar
    rcases p with ⟨n, cv⟩
    cases cv with
    | legacy v =>
      rw [restoreCookies, ih, nvPairs_setCookie]
      rfl
    | structured v d pa s =>
      rw [restoreCookies, ih, nvPairs_setCookie]
      rfl

/-- C9: loading a missing session file yields `(false, unchanged state)`
(the model is a total function — no exception escapes `_load_session`), and
a stored record whose cookies are legacy bare strings restores the same
observable session state (flags, timestamps, cookie names and values, user
info) as the same record with structured cookie entries. -/
theorem C9_load_missing_and_legacy :
    (∀ st now timeout, load_session none st now timeout = (false, st)) ∧
    (∀ (d : SessionData) (entries : List (String × CookieVal)) (st : SMState)
        (now timeout : Nat),
      (load_session (some (some { d with cookies := some (entries.map toLegacy) }))
          st now timeout).1
        = (load_session (some (some { d with cookies := some entries })) st now timeout).1 ∧
      stateNV (load_session (some (some { d with cookies := some (entries.map toLegacy) }))
          st now timeout).2
        = stateNV (load_session (some (some { d with cookies := some entries }))
          st now timeout).2) := by
  constructor
  · intro st now timeout
    rfl
  · intro d entries st now timeout
    unfold load_session
    by_cases hexp : now - d.saved_time.getD 0 > timeout
    · simp [hexp]
    · simp only [hexp, if_false, if_neg]
      constructor
      · trivial
      · unfold stateNV
        simp only [Option.getD_some]
        rw [nvPairs_restoreCookies, nvPairs_restoreCookies]
        have hmap : (entries.map toLegacy).map (fun p => (p.1, cookieValue p.2))
            = entries.map (fun p => (p.1, cookieValue p.2)) := by
          rw [List.map_map]
          apply List.map_congr_left
          intro p _
          rcases p with ⟨n, cv⟩
          cases cv <;> rfl
        rw [hmap]

/-! ### Helper lemmas about the login retry loop -/

/-- With auto-captcha, a successful fetch and an accepted solver result, one
iteration reduces to the submission step with the recognized text. -/
theorem loginStep_solved (base : String) (env : AttemptEnv) (isLast : Bool)
    (img c : String) (rd : SolveDict)
    (hf : env.fetch = some img)
    (hs : solve_captcha ["ddddocr"] env.rawOcr = some rd)
    (hsu : rd.success = true)
    (hres : rd.result = some c) :
    loginStep base "" true env isLast = (submitStep base c env isLast, [some img]) := by
  unfold loginStep
  rw [hf, hs]
  simp [hsu, hres]

/-- A rejected submission whose extracted error does not allow a retry
(no "验证码" in it, or no attempts remaining) returns that error. -/
theorem submitStep_err_done (base c : String) (env : AttemptEnv) (isLast : Bool)
    (e : String) (tl : List String)
    (hc : c ≠ "")
    (hurl : env.respUrl ≠ xsMainUrl base)
    (herr : env.fontErrors = e :: tl)
    (hstop : containsSeq "验证码".data (pyStrip e).data = false ∨ isLast = true) :
    submitStep base c env isLast = StepRes.done ⟨false, pyStrip e⟩ := by
  unfold submitStep
  rw [herr]
  rcases hstop with h | h <;> simp [hc, hurl, h]

/-- A rejected submission whose extracted error mentions "验证码" retries
while attempts remain. -/
theorem submitStep_err_retry (base c : String) (env : AttemptEnv)
    (e : String) (tl : List String)
    (hc : c ≠ "")
    (hurl : env.respUrl ≠ xsMainUrl base)
    (herr : env.fontErrors = e :: tl)
    (hyc : containsSeq "验证码".data (pyStrip e).data = true) :
    submitStep base c env false = StepRes.retry := by
  unfold submitStep
  rw [herr]
  simp [hc, hurl, hyc]

/-- One full loop iteration that ends with a terminal error: the loop
returns immediately with that error and the single image fetched in this
iteration, regardless of the remaining attempt budget. -/
theorem loginLoop_done_err (base : String) (mr : Nat) (isFirst : Bool)
    (env : AttemptEnv) (rest : List AttemptEnv)
    (img c e : String) (rd : SolveDict) (tl : List String)
    (hf : env.fetch = some img)
    (hs : solve_captcha ["ddddocr"] env.rawOcr = some rd)
    (hsu : rd.success = true)
    (hres : rd.result = some c)
    (hc : c ≠ "")
    (hurl : env.respUrl ≠ xsMainUrl base)
    (herr : env.fontErrors = e :: tl)
    (hstop : containsSeq "验证码".data (pyStrip e).data = false ∨ rest = []) :
    loginLoop base 200 "" true mr (env :: rest) isFirst
      = (⟨false, pyStrip e⟩, [some img]) := by
  have hstop2 : containsSeq "验证码".data (pyStrip e).data = false ∨ rest.isEmpty = true := by
    rcases hstop with h | h
    · exact Or.inl h
    · right
      rw [h]
      rfl
  rw [loginLoop]
  rw [loginStep_solved base env rest.isEmpty img c rd hf hs hsu hres]
  rw [submitStep_err_done base c env rest.isEmpty e tl hc hurl herr hstop2]
  simp

/-- One full loop iteration that ends in a captcha-mismatch retry: the loop
recurses on the remaining envs, prepending this iteration's fetch. -/
theorem loginLoop_retry_cons (base : String) (mr : Nat) (isFirst : Bool)
    (env : AttemptEnv) (rest : List AttemptEnv)
    (img c e : String) (rd : SolveDict) (tl : List String)
    (hf : env.fetch = some img)
    (hs : solve_captcha ["ddddocr"] env.rawOcr = some rd)
    (hsu : rd.success = true)
    (hres : rd.result = some c)
    (hc : c ≠ "")
    (hurl : env.respUrl ≠ xsMainUrl base)
    (herr : env.fontErrors = e :: tl)
    (hyc : containsSeq "验证码".data (pyStrip e).data = true)
    (hrest : rest ≠ []) :
    loginLoop base 200 "" true mr (env :: rest) isFirst
      = ((loginLoop base 200 "" true mr rest false).1,
         some img :: (loginLoop base 200 "" true mr rest false).2) := by
  have hemp : rest.isEmpty = false := by
    cases rest with
    | nil => exact absurd rfl hrest
    | cons a l => rfl
  rw [loginLoop]
  rw [loginStep_solved base env rest.isEmpty img c rd hf hs hsu hres]
  rw [hemp]
  rw [submitStep_err_retry base c env e tl hc hurl herr hyc]
  simp

/-! ### Claim C5 — only captcha-mismatch failures retry -/

/-- C5: within one login call, a classified failure whose extracted portal
message contains "验证码" (captcha mismatch) loops back for another attempt
while retries remain, whereas any other extracted failure message (e.g. a
credential mismatch) terminates the call immediately with that message,
without consuming the remaining attempts (the remaining envs are never
touched). -/
theorem C5_failure_routing (base img c e : String) (env : AttemptEnv)
    (rest : List AttemptEnv) (mr : Nat) (isFirst : Bool)
    (rd : SolveDict) (tl : List String)
    (hf : env.fetch = some img)
    (hs : solve_captcha ["ddddocr"] env.rawOcr = some rd)
    (hsu : rd.success = true)
    (hres : rd.result = some c)
    (hc : c ≠ "")
    (hurl : env.respUrl ≠ xsMainUrl base)
    (herr : env.fontErrors = e :: tl) :
    (containsSeq "验证码".data (pyStrip e).data = false →
      loginLoop base 200 "" true mr (env :: rest) isFirst
        = (⟨false, pyStrip e⟩, [some img])) ∧
    (containsSeq "验证码".data (pyStrip e).data = true → rest ≠ [] →
      loginLoop base 200 "" true mr (env :: rest) isFirst
        = ((loginLoop base 200 "" true mr rest false).1,
           some img :: (loginLoop base 200 "" true mr rest false).2)) := by
  constructor
  · intro hnc
    exact loginLoop_done_err base mr isFirst env rest img c e rd tl
      hf hs hsu hres hc hurl herr (Or.inl hnc)
  · intro hyc hrest
    exact loginLoop_retry_cons base mr isFirst env rest img c e rd tl
      hf hs hsu hres hc hurl herr hyc hrest

/-- Witness for C5: a credential-mismatch message terminates the two-attempt
login on the first attempt, with one image fetched. -/
theorem C5_failure_routing_witness :
    loginLoop "http://b" 200 "" true 2
      [⟨some "i1", "", "ab12", "http://b/err", ["用户名或密码错误"]⟩,
       ⟨some "i2", "", "cd34", "http://b/err", ["验证码错误"]⟩] true
      = (⟨false, "用户名或密码错误"⟩, [some "i1"]) :=
  (C5_failure_routing "http://b" "i1" "ab12" "用户名或密码错误"
      ⟨some "i1", "", "ab12", "http://b/err", ["用户名或密码错误"]⟩
      [⟨some "i2", "", "cd34", "http://b/err", ["验证码错误"]⟩] 2 true
      ⟨true, some "ab12", some "ddddocr", "识别成功: ab12 (原始: ab12)"⟩ []
      rfl (by decide) rfl rfl (by decide) (by decide) rfl).1 (by decide)

/-! ### Claim C6 — three rejected captchas, three fresh images -/

/-- C6: with a retry budget of 3 and every attempt rejected by the portal
with a captcha-mismatch message, the login terminates after exactly the 3
attempts, fetches exactly 3 captcha images — one fresh image per attempt,
pairwise distinct — and returns the captcha failure as its result. -/
theorem C6_three_rejections (base : String) (e1 e2 e3 : AttemptEnv)
    (i1 i2 i3 c1 c2 c3 f1 f2 f3 : String) (rd1 rd2 rd3 : SolveDict)
    (tl1 tl2 tl3 : List String)
    (hf1 : e1.fetch = some i1) (hs1 : solve_captcha ["ddddocr"] e1.rawOcr = some rd1)
    (hsu1 : rd1.success = true) (hres1 : rd1.result = some c1) (hc1 : c1 ≠ "")
    (hurl1 : e1.respUrl ≠ xsMainUrl base) (herr1 : e1.fontErrors = f1 :: tl1)
    (hyc1 : containsSeq "验证码".data (pyStrip f1).data = true)
    (hf2 : e2.fetch = some i2) (hs2 : solve_captcha ["ddddocr"] e2.rawOcr = some rd2)
    (hsu2 : rd2.success = true) (hres2 : rd2.result = some c2) (hc2 : c2 ≠ "")
    (hurl2 : e2.respUrl ≠ xsMainUrl base) (herr2 : e2.fontErrors = f2 :: tl2)
    (hyc2 : containsSeq "验证码".data (pyStrip f2).data = true)
    (hf3 : e3.fetch = some i3) (hs3 : solve_captcha ["ddddocr"] e3.rawOcr = some rd3)
    (hsu3 : rd3.success = true) (hres3 : rd3.result = some c3) (hc3 : c3 ≠ "")
    (hurl3 : e3.respUrl ≠ xsMainUrl base) (herr3 : e3.fontErrors = f3 :: tl3)
    (hd12 : i1 ≠ i2) (hd13 : i1 ≠ i3) (hd23 : i2 ≠ i3) :
    lm_login base 200 "" true [e1, e2, e3]
      = (⟨false, pyStrip f3⟩, [some i1, some i2, some i3]) ∧
    List.Pairwise (fun a b => a ≠ b)
      ([some i1, some i2, some i3] : List (Option String)) := by
  constructor
  · unfold lm_login
    show loginLoop base 200 "" true 3 [e1, e2, e3] true = _
    rw [loginLoop_retry_cons base 3 true e1 [e2, e3] i1 c1 f1 rd1 tl1
        hf1 hs1 hsu1 hres1 hc1 hurl1 herr1 hyc1 (by simp)]
    rw [loginLoop_retry_cons base 3 false e2 [e3] i2 c2 f2 rd2 tl2
        hf2 hs2 hsu2 hres2 hc2 hurl2 herr2 hyc2 (by simp)]
    rw [loginLoop_done_err base 3 false e3 [] i3 c3 f3 rd3 tl3
        hf3 hs3 hsu3 hres3 hc3 hurl3 herr3 (Or.inr rfl)]
  · simp only [List.pairwise_cons, List.mem_cons, List.mem_singleton]
    refine ⟨?_, ?_, ?_⟩
    · intro a ha
      rcases ha with h | h | h
      · subst h; simp [hd12]
      · subst h; simp [hd13]
      · simp at h
    · intro a ha
      rcases ha with h | h
      · subst h; simp [hd23]
      · simp at h
    · simp

/-- Witness for C6 at three concrete rejected attempts with distinct
images. -/
theorem C6_three_rejections_witness :
    lm_login "http://b" 200 "" true
      [⟨some "i1", "", "ab12", "http://b/err", ["验证码错误"]⟩,
       ⟨some "i2", "", "cd34", "http://b/err", ["验证码错误"]⟩,
       ⟨some "i3", "", "ef56", "http://b/err", ["验证码错误"]⟩]
      = (⟨false, "验证码错误"⟩, [some "i1", some "i2", some "i3"]) ∧
    List.Pairwise (fun a b => a ≠ b)
      ([some "i1", some "i2", some "i3"] : List (Option String)) := by
  have h := C6_three_rejections "http://b"
    ⟨some "i1", "", "ab12", "http://b/err", ["验证码错误"]⟩
    ⟨some "i2", "", "cd34", "http://b/err", ["验证码错误"]⟩
    ⟨some "i3", "", "ef56", "http://b/err", ["验证码错误"]⟩
    "i1" "i2" "i3" "ab12" "cd34" "ef56" "验证码错误" "验证码错误" "验证码错误"
    ⟨true, some "ab12", some "ddddocr", "识别成功: ab12 (原始: ab12)"⟩
    ⟨true, some "cd34", some "ddddocr", "识别成功: cd34 (原始: cd34)"⟩
    ⟨true, some "ef56", some "ddddocr", "识别成功: ef56 (原始: ef56)"⟩
    [] [] []
    rfl (by decide) rfl rfl (by decide) (by decide) rfl (by decide)
    rfl (by decide) rfl rfl (by decide) (by decide) rfl (by decide)
    rfl (by decide) rfl rfl (by decide) (by decide) rfl
    (by decide) (by decide) (by decide)
  exact h
